import Mathlib

/-!
Verification of the Timone ground-station communication hub specification
against the repository.  The embedded comm-hub core (comm_hub.py /
test_sender.py / communicator.py) is documented in the repository
(tools/POLLING_CHANGES.md, src/scripts/COMM_HUB_USAGE.md) but the Python
sources themselves are not part of this tree, so the hub components are
modelled from the specification and the code excerpts quoted in those
documents.  The service-worker fetch handler (static/sw.js) and the log
panel persistence (static/js/logs.js) are embedded from the JavaScript
sources directly.
-/

namespace Timone

/-! ## Wire protocol constants (spec section 6; POLLING_CHANGES.md) -/

def HELLO_BYTE : Nat := 0x7E

def RESPONSE_BYTE : Nat := 0x7D

def GOODBYE_BYTE : Nat := 0x7F

/-- Maximum value of the single LENGTH byte of a frame. -/
def MAX_FRAME_SIZE : Nat := 255

/-! ## Little-endian integer fields -/

/-- Serialize a natural number into `k` little-endian bytes. -/
def toLE : Nat → Nat → List Nat
  | 0, _ => []
  | k + 1, n => n % 256 :: toLE k (n / 256)

/-- Read back a little-endian byte list as a natural number. -/
def fromLE : List Nat → Nat
  | [] => 0
  | b :: bs => b + 256 * fromLE bs

/-! ## Fixed payload structures (COMM_HUB_USAGE.md, Data Structures).
Floating-point fields are modelled by their 32-bit little-endian wire words
(a `Nat` below `2 ^ 32`): the codec moves the four bytes verbatim, so the
byte-level round-trip is exactly the round-trip of the word. -/

/-- Modelled from the spec: WireHeartbeat_t, 6 bytes
(version, uptime_seconds, system_state). -/
structure WireHeartbeat where
  version : Nat
  uptime_seconds : Nat
  system_state : Nat
deriving DecidableEq

/-- Modelled from the spec: WireStatus_t, 20 bytes. -/
structure WireStatus where
  version : Nat
  uptime_seconds : Nat
  system_state : Nat
  sensor_flags : Nat
  pkt_count_lora : Nat
  pkt_count_433 : Nat
  wakeup_time : Nat
  heap_free : Nat
  chip_revision : Nat
deriving DecidableEq

/-- Modelled from the spec: WireLoRa_t, 74 bytes; `rssi` is a signed
16-bit field, `snr` a 32-bit float word, `payload` a fixed 64-byte buffer. -/
structure WireLoRa where
  version : Nat
  packet_count : Nat
  rssi : Int
  snr : Nat
  payload_length : Nat
  payload : List Nat
deriving DecidableEq

/-- Modelled from the spec: WireBarometer_t, 17 bytes. -/
structure WireBarometer where
  version : Nat
  timestamp : Nat
  pressure_pa : Nat
  temperature_c : Nat
  altitude_m : Nat
deriving DecidableEq

/-- Modelled from the spec: WireCurrent_t, 19 bytes. -/
structure WireCurrent where
  version : Nat
  timestamp : Nat
  current_a : Nat
  voltage_v : Nat
  power_w : Nat
  raw_adc : Nat
deriving DecidableEq

/-- A payload length mismatch: carries expected and actual byte counts. -/
structure DecodeError where
  expected : Nat
  actual : Nat
deriving DecidableEq

/-! ### Encoders (spec round-trip property, section 8) -/

/-- Encode a signed 16-bit little-endian value (two's complement). -/
def toLE16s (x : Int) : List Nat :=
  toLE 2 (x % 65536).toNat

def encode_heartbeat (r : WireHeartbeat) : List Nat :=
  toLE 1 r.version ++ (toLE 4 r.uptime_seconds ++ toLE 1 r.system_state)

def encode_status (r : WireStatus) : List Nat :=
  toLE 1 r.version ++ (toLE 4 r.uptime_seconds ++ (toLE 1 r.system_state ++
    (toLE 1 r.sensor_flags ++ (toLE 2 r.pkt_count_lora ++
    (toLE 2 r.pkt_count_433 ++ (toLE 4 r.wakeup_time ++
    (toLE 4 r.heap_free ++ toLE 1 r.chip_revision)))))))

def encode_lora (r : WireLoRa) : List Nat :=
  toLE 1 r.version ++ (toLE 2 r.packet_count ++ (toLE16s r.rssi ++
    (toLE 4 r.snr ++ (toLE 1 r.payload_length ++ r.payload))))

def encode_barometer (r : WireBarometer) : List Nat :=
  toLE 1 r.version ++ (toLE 4 r.timestamp ++ (toLE 4 r.pressure_pa ++
    (toLE 4 r.temperature_c ++ toLE 4 r.altitude_m)))

def encode_current (r : WireCurrent) : List Nat :=
  toLE 1 r.version ++ (toLE 4 r.timestamp ++ (toLE 4 r.current_a ++
    (toLE 4 r.voltage_v ++ (toLE 4 r.power_w ++ toLE 2 r.raw_adc))))

/-! ### Decoders.  Each validates the exact expected byte length before
interpreting any field, and fails with a `DecodeError` carrying expected
and actual lengths otherwise (spec section 4.5).  Fields are consumed
sequentially, exactly as struct.unpack walks the buffer. -/

/-- Consume `k` bytes as an unsigned little-endian integer. -/
def parseLE (k : Nat) (p : List Nat) : Nat × List Nat :=
  (fromLE (p.take k), p.drop k)

/-- Decode a signed 16-bit little-endian value. -/
def fromLE16s (bs : List Nat) : Int :=
  let v := fromLE bs
  if v < 32768 then (v : Int) else (v : Int) - 65536

/-- Consume 2 bytes as a signed little-endian integer. -/
def parse16s (p : List Nat) : Int × List Nat :=
  (fromLE16s (p.take 2), p.drop 2)

/-- Consume `k` raw bytes. -/
def parseRaw (k : Nat) (p : List Nat) : List Nat × List Nat :=
  (p.take k, p.drop k)

def unpack_heartbeat (p : List Nat) : Except DecodeError WireHeartbeat :=
  if p.length = 6 then
    let s1 := parseLE 1 p
    let s2 := parseLE 4 s1.2
    let s3 := parseLE 1 s2.2
    .ok ⟨s1.1, s2.1, s3.1⟩
  else .error ⟨6, p.length⟩

def unpack_status (p : List Nat) : Except DecodeError WireStatus :=
  if p.length = 20 then
    let s1 := parseLE 1 p
    let s2 := parseLE 4 s1.2
    let s3 := parseLE 1 s2.2
    let s4 := parseLE 1 s3.2
    let s5 := parseLE 2 s4.2
    let s6 := parseLE 2 s5.2
    let s7 := parseLE 4 s6.2
    let s8 := parseLE 4 s7.2
    let s9 := parseLE 1 s8.2
    .ok ⟨s1.1, s2.1, s3.1, s4.1, s5.1, s6.1, s7.1, s8.1, s9.1⟩
  else .error ⟨20, p.length⟩

def unpack_lora (p : List Nat) : Except DecodeError WireLoRa :=
  if p.length = 74 then
    let s1 := parseLE 1 p
    let s2 := parseLE 2 s1.2
    let s3 := parse16s s2.2
    let s4 := parseLE 4 s3.2
    let s5 := parseLE 1 s4.2
    let s6 := parseRaw 64 s5.2
    .ok ⟨s1.1, s2.1, s3.1, s4.1, s5.1, s6.1⟩
  else .error ⟨74, p.length⟩

def unpack_barometer (p : List Nat) : Except DecodeError WireBarometer :=
  if p.length = 17 then
    let s1 := parseLE 1 p
    let s2 := parseLE 4 s1.2
    let s3 := parseLE 4 s2.2
    let s4 := parseLE 4 s3.2
    let s5 := parseLE 4 s4.2
    .ok ⟨s1.1, s2.1, s3.1, s4.1, s5.1⟩
  else .error ⟨17, p.length⟩

def unpack_current (p : List Nat) : Except DecodeError WireCurrent :=
  if p.length = 19 then
    let s1 := parseLE 1 p
    let s2 := parseLE 4 s1.2
    let s3 := parseLE 4 s2.2
    let s4 := parseLE 4 s3.2
    let s5 := parseLE 4 s4.2
    let s6 := parseLE 2 s5.2
    .ok ⟨s1.1, s2.1, s3.1, s4.1, s5.1, s6.1⟩
  else .error ⟨19, p.length⟩

/-! ### In-range predicates for the round-trip property. -/

def hbInRange (r : WireHeartbeat) : Prop :=
  r.version < 256 ∧ r.uptime_seconds < 2 ^ 32 ∧ r.system_state < 256

def statusInRange (r : WireStatus) : Prop :=
  r.version < 256 ∧ r.uptime_seconds < 2 ^ 32 ∧ r.system_state < 256 ∧
  r.sensor_flags < 256 ∧ r.pkt_count_lora < 2 ^ 16 ∧ r.pkt_count_433 < 2 ^ 16 ∧
  r.wakeup_time < 2 ^ 32 ∧ r.heap_free < 2 ^ 32 ∧ r.chip_revision < 256

def loraInRange (r : WireLoRa) : Prop :=
  r.version < 256 ∧ r.packet_count < 2 ^ 16 ∧
  -32768 ≤ r.rssi ∧ r.rssi < 32768 ∧ r.snr < 2 ^ 32 ∧
  r.payload_length < 256 ∧ r.payload.length = 64

def baroInRange (r : WireBarometer) : Prop :=
  r.version < 256 ∧ r.timestamp < 2 ^ 32 ∧ r.pressure_pa < 2 ^ 32 ∧
  r.temperature_c < 2 ^ 32 ∧ r.altitude_m < 2 ^ 32

def currentInRange (r : WireCurrent) : Prop :=
  r.version < 256 ∧ r.timestamp < 2 ^ 32 ∧ r.current_a < 2 ^ 32 ∧
  r.voltage_v < 2 ^ 32 ∧ r.power_w < 2 ^ 32 ∧ r.raw_adc < 2 ^ 16

instance (r : WireHeartbeat) : Decidable (hbInRange r) := by
  unfold hbInRange; infer_instance

instance (r : WireStatus) : Decidable (statusInRange r) := by
  unfold statusInRange; infer_instance

instance (r : WireLoRa) : Decidable (loraInRange r) := by
  unfold loraInRange; infer_instance

instance (r : WireBarometer) : Decidable (baroInRange r) := by
  unfold baroInRange; infer_instance

instance (r : WireCurrent) : Decidable (currentInRange r) := by
  unfold currentInRange; infer_instance

/-! ## Payload dispatch (PayloadDecoder / decode_wire_payload) -/

/-- One decoded telemetry record. -/
inductive WireRecord where
  | heartbeat (h : WireHeartbeat)
  | status (s : WireStatus)
  | lora (l : WireLoRa)
  | barometer (b : WireBarometer)
  | current (c : WireCurrent)
  | ack (cmd : Nat)
deriving DecidableEq

/-- Modelled from the spec: decode_wire_payload of comm_hub.py / the
Hub._unpack_payload dispatch — interpret a raw payload by peripheral id. -/
def decode_wire_payload (pid : Nat) (payload : List Nat) :
    Except DecodeError WireRecord :=
  if pid = 1 ∨ pid = 2 then (unpack_lora payload).map .lora
  else if pid = 3 then (unpack_barometer payload).map .barometer
  else if pid = 4 then (unpack_current payload).map .current
  else if payload.length = 6 then (unpack_heartbeat payload).map .heartbeat
  else if payload.length = 20 then (unpack_status payload).map .status
  else if payload.length = 1 then .ok (.ack (payload.headD 0))
  else .error ⟨1, payload.length⟩

/-! ## FrameCodec (spec section 4.1) -/

/-- The command frame could not be encoded: the LENGTH byte would exceed
the maximum frame size. -/
structure EncodingError where
  length : Nat
deriving DecidableEq

/-- Modelled from the spec: encodeCommand of the FrameCodec
(the send_command frame layout quoted in POLLING_CHANGES.md:
frame[0]=HELLO, frame[1]=peripheral_id, frame[2]=len+1, frame[3]=cmd,
data, frame[4+len]=GOODBYE). -/
def encodeCommand (peripheralId commandCode : Nat) (data : List Nat) :
    Except EncodingError (List Nat) :=
  if MAX_FRAME_SIZE < data.length + 1 then .error ⟨data.length + 1⟩
  else .ok (HELLO_BYTE :: peripheralId :: (data.length + 1) :: commandCode ::
            (data ++ [GOODBYE_BYTE]))

/-! ## Transport (spec section 4.2) -/

/-- The blocking wait for a reply or for bytes expired. -/
inductive TimeoutError where
  | timeout
deriving DecidableEq

/-- Modelled from the spec: the readExact loop of the Transport.  `sched t`
is the list of bytes that arrive on the wire during tick `t`; the loop
accumulates arrivals until `n` bytes are buffered or the deadline (in
ticks) elapses. -/
def readExactGo (sched : Nat → List Nat) (n : Nat) :
    Nat → Nat → List Nat → Except TimeoutError (List Nat)
  | _, 0, buf =>
      if n ≤ buf.length then .ok (buf.take n) else .error .timeout
  | t, fuel + 1, buf =>
      if n ≤ buf.length then .ok (buf.take n)
      else readExactGo sched n (t + 1) fuel (buf ++ sched t)

/-- Modelled from the spec: `readExact(n, deadline) → bytes | TimeoutError`. -/
def readExact (sched : Nat → List Nat) (n deadline : Nat) :
    Except TimeoutError (List Nat) :=
  readExactGo sched n 0 deadline []

/-! ## FrameReader (spec section 4.3) -/

/-- A response frame as reassembled by the FrameReader. -/
structure Frame where
  peripheralId : Nat
  payload : List Nat
deriving DecidableEq

/-- Outcome of one FrameReader iteration on the buffered input. -/
inductive ReadOutcome where
  | frame (f : Frame)
  | desync
  | idle
deriving DecidableEq

/-- Modelled from the spec: one iteration of the FrameReader frame
assembly.  Leading bytes before the RESPONSE start marker are discarded as
noise; then peripheral id, length, exactly `length` payload bytes and the
terminator are read.  An invalid terminator is a desynchronization event:
the whole input buffer is discarded (resetInputBuffer).  A valid frame
consumes exactly its own bytes and leaves everything after the terminator
untouched.  Returns the outcome and the remaining input buffer. -/
def readFrame (buf : List Nat) : ReadOutcome × List Nat :=
  match buf.dropWhile (fun b => b != RESPONSE_BYTE) with
  | [] => (.idle, [])
  | _ :: afterMarker =>
      match afterMarker with
      | pid :: len :: rest =>
          if len + 1 ≤ rest.length then
            if (rest.drop len).headD 0 = GOODBYE_BYTE then
              (.frame ⟨pid, rest.take len⟩, rest.drop (len + 1))
            else
              (.desync, [])
          else (.idle, buf)
      | _ => (.idle, buf)

/-! ## Hub state and events (spec sections 4.3, 4.4, 5) -/

/-- The pending-reply registration table: a Python dict keyed by peripheral
id, so it holds at most one registration (the waiting caller) per id. -/
def PendingTable := Nat → Option Nat

/-- Modelled from the spec: registering a PendingReply replaces any prior
registration for the same peripheral id (supersede-on-insert). -/
def registerPending (t : PendingTable) (pid caller : Nat) : PendingTable :=
  fun p => if p = pid then some caller else t p

/-- Modelled from the spec: pending_replies.pop(peripheral_id, None). -/
def popPending (t : PendingTable) (pid : Nat) : PendingTable :=
  fun p => if p = pid then none else t p

/-- Shared state of the hub: the transport input buffer (owned by the
FrameReader), the bytes written to the device, the registration table, the
frames delivered to waiting callers, the telemetry published, and the
callers whose wait ended with TimeoutError. -/
structure HubState where
  input : List Nat
  output : List Nat
  pending : PendingTable
  delivered : List (Nat × Frame)
  published : List (Nat × Except DecodeError WireRecord)
  timedOut : List Nat

/-- Modelled from the spec: the routing step of _rx_loop on a fully valid
frame — deliver to a registered PendingReply and clear it, or decode via
PayloadDecoder and publish as autonomous telemetry. -/
def rx_route_frame (s : HubState) (f : Frame) : HubState :=
  match s.pending f.peripheralId with
  | some caller =>
      { s with pending := popPending s.pending f.peripheralId,
               delivered := s.delivered ++ [(caller, f)] }
  | none =>
      { s with published := s.published ++
          [(f.peripheralId, decode_wire_payload f.peripheralId f.payload)] }

/-- Modelled from the spec: one full _rx_loop iteration — assemble one
frame from the input buffer and route it; on desync the buffer has been
reset; on idle nothing else changes. -/
def rx_loop_step (s : HubState) : HubState :=
  match readFrame s.input with
  | (.frame f, rest) => rx_route_frame { s with input := rest } f
  | (.desync, rest) => { s with input := rest }
  | (.idle, rest) => { s with input := rest }

/-- Events issued by writer tasks: a sendCommand call or a polling-loop
tick.  Neither is a reader event. -/
inductive WriterEvent where
  | send (caller pid cmd : Nat) (data : List Nat)
  | pollTick (caller pid : Nat)

/-- Modelled from the spec: the write-only half of sendCommand — register
a PendingReply (superseding any stale one) and write the encoded command
frame to the Transport.  It never reads: the input buffer is not touched. -/
def send_command_step (s : HubState) (caller pid cmd : Nat) (data : List Nat) :
    HubState :=
  let s1 := { s with pending := registerPending s.pending pid caller }
  match encodeCommand pid cmd data with
  | .ok bytes => { s1 with output := s1.output ++ bytes }
  | .error _ => s1

/-- Modelled from the spec: the polling loop is just another writer — each
tick issues a GET_ALL (0x00) sendCommand for the polled peripheral. -/
def writerStep (s : HubState) : WriterEvent → HubState
  | .send caller pid cmd data => send_command_step s caller pid cmd data
  | .pollTick caller pid => send_command_step s caller pid 0 []

/-- Modelled from the spec: the timeout branch of _roundtrip — if nothing
was ever delivered to this caller by the reply deadline, deregister the
pending entry and fail the caller with TimeoutError. -/
def timeout_step (s : HubState) (caller pid : Nat) : HubState :=
  if (s.delivered.filter (fun d => d.1 = caller)).isEmpty then
    { s with pending := popPending s.pending pid,
             timedOut := s.timedOut ++ [caller] }
  else s

/-- All events of the hub, for whole-trace statements. -/
inductive HubEvent where
  | writer (e : WriterEvent)
  | arrive (bytes : List Nat)
  | readerWake
  | timeoutFire (caller pid : Nat)

/-- Modelled from the spec: the hub transition relation.  `arrive` is the
device putting bytes on the wire (they land in the input buffer); only
`readerWake` runs the FrameReader. -/
def hubStep (s : HubState) : HubEvent → HubState
  | .writer e => writerStep s e
  | .arrive bytes => { s with input := s.input ++ bytes }
  | .readerWake => rx_loop_step s
  | .timeoutFire caller pid => timeout_step s caller pid

/-- Run a trace of hub events. -/
def hubRun (s : HubState) (evs : List HubEvent) : HubState :=
  evs.foldl hubStep s

/-- The initial hub state: empty buffers, no registrations. -/
def initialHub : HubState :=
  ⟨[], [], fun _ => none, [], [], []⟩

/-! ## Service worker fetch handler (static/sw.js, both versions) -/

/-- JavaScript String.prototype.includes for a fixed search string: `sub`
occurs in `s` iff splitting on it yields at least two pieces. -/
def jsIncludes (s sub : String) : Bool :=
  2 ≤ (s.splitOn sub).length

/-- The fields of a fetch event request that the handler inspects. -/
structure SWRequest where
  method : String
  pathname : String
  origin : String
  accept : String

/-- What the fetch listener decides for a request.  `passThrough` is the
handler returning without calling respondWith: the browser performs the
request on the network directly, with no service-worker cache involvement. -/
inductive FetchAction where
  | passThrough
  | cacheFirst
  | networkFirst
deriving DecidableEq

/-- The fetch listener of sw.js (cache-first variant, TimoneGUI/src/static/sw.js):
bypass event-streams and the two stream endpoints, non-GET requests and
`/api/` paths; same-origin requests are answered cache-first. -/
def sw_fetch_v3 (swOrigin : String) (r : SWRequest) : FetchAction :=
  if jsIncludes r.accept "text/event-stream" ∨
     r.pathname = "/api/logs/stream" ∨ r.pathname = "/api/telemetry/stream" then
    .passThrough
  else if r.method ≠ "GET" then .passThrough
  else if r.pathname.startsWith "/api/" then .passThrough
  else if r.origin = swOrigin then .cacheFirst
  else .passThrough

/-- The fetch listener of the v5 sw.js: same bypasses, then network-first
for the manifest, the worker itself and `/static/js/`, `/static/css/`,
cache-first for other same-origin requests. -/
def sw_fetch_v5 (swOrigin : String) (r : SWRequest) : FetchAction :=
  if jsIncludes r.accept "text/event-stream" ∨
     r.pathname = "/api/logs/stream" ∨ r.pathname = "/api/telemetry/stream" then
    .passThrough
  else if r.method ≠ "GET" then .passThrough
  else if r.pathname.startsWith "/api/" then .passThrough
  else if r.pathname = "/manifest.json" ∨ r.pathname = "/sw.js" then .networkFirst
  else if r.pathname.startsWith "/static/js/" ∨
          r.pathname.startsWith "/static/css/" then .networkFirst
  else if r.origin = swOrigin then .cacheFirst
  else .passThrough

/-- The result of executing a fetch action: the cache afterwards, whether
the response came from the cache, and whether the network was contacted. -/
structure FetchOutcome where
  cacheAfter : List (String × String)
  fromCache : Bool
  network : Bool
deriving DecidableEq

/-- Cache lookup by request path (caches.match). -/
def cacheMatch (cache : List (String × String)) (path : String) :
    Option String :=
  (cache.find? (fun e => e.1 = path)).map (·.2)

/-- Execute a fetch action against a cache, with `netResp` the network
response when the network is reachable.  `cacheFirst` and `networkFirst`
follow the strategy helpers of sw.js; `passThrough` touches nothing. -/
def runFetch (cache : List (String × String)) (r : SWRequest)
    (netResp : Option String) : FetchAction → FetchOutcome
  | .passThrough => ⟨cache, false, true⟩
  | .cacheFirst =>
      match cacheMatch cache r.pathname with
      | some _ => ⟨cache, true, false⟩
      | none =>
          match netResp with
          | some resp => ⟨cache ++ [(r.pathname, resp)], false, true⟩
          | none => ⟨cache, false, true⟩
  | .networkFirst =>
      match netResp with
      | some resp => ⟨cache ++ [(r.pathname, resp)], false, true⟩
      | none =>
          match cacheMatch cache r.pathname with
          | some _ => ⟨cache, true, true⟩
          | none => ⟨cache, false, true⟩

/-! ## Log panels (static/js/logs.js) -/

/-- The storage safety cap of logs.js. -/
def MAX_ENTRIES : Nat := 5000

/-- One persisted log entry, the compact form written by _persist. -/
structure LogEntry where
  ts : String
  level : String
  message : String
deriving DecidableEq

/-- The message actually displayed and persisted: origin, when given,
prefixes the message as in addLogEntry. -/
def displayMessage (origin : Option String) (message : String) : String :=
  match origin with
  | some o => "[" ++ o ++ "] " ++ message
  | none => message

/-- PanelLog._persist: append the entry, then splice off the excess from
the front when the MAX_ENTRIES cap is exceeded, and store the result. -/
def persistEntry (all : List LogEntry) (e : LogEntry) : List LogEntry :=
  let pushed := all ++ [e]
  if MAX_ENTRIES < pushed.length then
    pushed.drop (pushed.length - MAX_ENTRIES)
  else pushed

/-- The localStorage effect of PanelLog.addLogEntry: when the panel has a
log-content element it persists the compact entry via _persist, otherwise
it returns before touching storage. -/
def addLogEntryStorage (hasLogContent : Bool) (stored : List LogEntry)
    (message level ts : String) (origin : Option String) : List LogEntry :=
  if hasLogContent then
    persistEntry stored ⟨ts, level, displayMessage origin message⟩
  else stored

/-! ## Helper lemmas -/

theorem toLE_length (k : Nat) : ∀ n, (toLE k n).length = k := by
  induction k with
  | zero => intro n; rfl
  | succ k ih => intro n; simp [toLE, ih]

theorem toLE16s_length (x : Int) : (toLE16s x).length = 2 :=
  toLE_length 2 _

theorem fromLE_toLE (k : Nat) : ∀ n, n < 256 ^ k → fromLE (toLE k n) = n := by
  induction k with
  | zero => intro n h; simp only [pow_zero] at h; simp [toLE, fromLE]; omega
  | succ k ih =>
      intro n h
      have hd : n / 256 < 256 ^ k := by
        rw [pow_succ] at h
        omega
      simp only [toLE, fromLE, ih (n / 256) hd]
      omega

theorem parseLE_toLE (k n : Nat) (h : n < 256 ^ k) (rest : List Nat) :
    parseLE k (toLE k n ++ rest) = (n, rest) := by
  unfold parseLE
  rw [List.take_left' (toLE_length k n), List.drop_left' (toLE_length k n),
      fromLE_toLE k n h]

theorem parseLE_toLE_nil (k n : Nat) (h : n < 256 ^ k) :
    parseLE k (toLE k n) = (n, []) := by
  have := parseLE_toLE k n h []
  rwa [List.append_nil] at this

theorem parse16s_toLE16s (x : Int) (rest : List Nat)
    (h1 : -32768 ≤ x) (h2 : x < 32768) :
    parse16s (toLE16s x ++ rest) = (x, rest) := by
  have hx : (0 : Int) ≤ x % 65536 := Int.emod_nonneg x (by norm_num)
  have hx2 : x % 65536 < 65536 := Int.emod_lt_of_pos x (by norm_num)
  have hmi : ((x % 65536).toNat : Int) = x % 65536 := Int.toNat_of_nonneg hx
  have hm : (x % 65536).toNat < 65536 := by omega
  unfold parse16s toLE16s
  rw [List.take_left' (toLE_length 2 _), List.drop_left' (toLE_length 2 _)]
  simp only [fromLE16s,
    fromLE_toLE 2 _ (show (x % 65536).toNat < 256 ^ 2 by norm_num; omega),
    Prod.mk.injEq]
  refine ⟨?_, trivial⟩
  split <;> omega

theorem parseRaw_exact (k : Nat) (bs rest : List Nat) (h : bs.length = k) :
    parseRaw k (bs ++ rest) = (bs, rest) := by
  unfold parseRaw
  rw [List.take_left' h, List.drop_left' h]

theorem parseRaw_nil (k : Nat) (bs : List Nat) (h : bs.length = k) :
    parseRaw k bs = (bs, []) := by
  have := parseRaw_exact k bs [] h
  rwa [List.append_nil] at this

theorem unpack_encode_heartbeat (r : WireHeartbeat) (h : hbInRange r) :
    unpack_heartbeat (encode_heartbeat r) = .ok r := by
  obtain ⟨h1, h2, h3⟩ := h
  have e1 := parseLE_toLE 1 r.version (by norm_num at h1 ⊢; omega)
  have e2 := parseLE_toLE 4 r.uptime_seconds (by norm_num at h2 ⊢; omega)
  have e3 := parseLE_toLE_nil 1 r.system_state (by norm_num at h3 ⊢; omega)
  simp [unpack_heartbeat, encode_heartbeat, toLE_length, e1, e2, e3]

theorem unpack_encode_status (r : WireStatus) (h : statusInRange r) :
    unpack_status (encode_status r) = .ok r := by
  obtain ⟨h1, h2, h3, h4, h5, h6, h7, h8, h9⟩ := h
  have e1 := parseLE_toLE 1 r.version (by norm_num at h1 ⊢; omega)
  have e2 := parseLE_toLE 4 r.uptime_seconds (by norm_num at h2 ⊢; omega)
  have e3 := parseLE_toLE 1 r.system_state (by norm_num at h3 ⊢; omega)
  have e4 := parseLE_toLE 1 r.sensor_flags (by norm_num at h4 ⊢; omega)
  have e5 := parseLE_toLE 2 r.pkt_count_lora (by norm_num at h5 ⊢; omega)
  have e6 := parseLE_toLE 2 r.pkt_count_433 (by norm_num at h6 ⊢; omega)
  have e7 := parseLE_toLE 4 r.wakeup_time (by norm_num at h7 ⊢; omega)
  have e8 := parseLE_toLE 4 r.heap_free (by norm_num at h8 ⊢; omega)
  have e9 := parseLE_toLE_nil 1 r.chip_revision (by norm_num at h9 ⊢; omega)
  simp [unpack_status, encode_status, toLE_length, e1, e2, e3, e4, e5, e6,
        e7, e8, e9]

theorem unpack_encode_lora (r : WireLoRa) (h : loraInRange r) :
    unpack_lora (encode_lora r) = .ok r := by
  obtain ⟨h1, h2, h3, h4, h5, h6, h7⟩ := h
  have e1 := parseLE_toLE 1 r.version (by norm_num at h1 ⊢; omega)
  have e2 := parseLE_toLE 2 r.packet_count (by norm_num at h2 ⊢; omega)
  have e3 := fun rest => parse16s_toLE16s r.rssi rest h3 h4
  have e4 := parseLE_toLE 4 r.snr (by norm_num at h5 ⊢; omega)
  have e5 := parseLE_toLE 1 r.payload_length (by norm_num at h6 ⊢; omega)
  have e6 := parseRaw_nil 64 r.payload h7
  simp [unpack_lora, encode_lora, toLE_length, toLE16s_length, h7,
        e1, e2, e3, e4, e5, e6]

theorem unpack_encode_barometer (r : WireBarometer) (h : baroInRange r) :
    unpack_barometer (encode_barometer r) = .ok r := by
  obtain ⟨h1, h2, h3, h4, h5⟩ := h
  have e1 := parseLE_toLE 1 r.version (by norm_num at h1 ⊢; omega)
  have e2 := parseLE_toLE 4 r.timestamp (by norm_num at h2 ⊢; omega)
  have e3 := parseLE_toLE 4 r.pressure_pa (by norm_num at h3 ⊢; omega)
  have e4 := parseLE_toLE 4 r.temperature_c (by norm_num at h4 ⊢; omega)
  have e5 := parseLE_toLE_nil 4 r.altitude_m (by norm_num at h5 ⊢; omega)
  simp [unpack_barometer, encode_barometer, toLE_length, e1, e2, e3, e4, e5]

theorem unpack_encode_current (r : WireCurrent) (h : currentInRange r) :
    unpack_current (encode_current r) = .ok r := by
  obtain ⟨h1, h2, h3, h4, h5, h6⟩ := h
  have e1 := parseLE_toLE 1 r.version (by norm_num at h1 ⊢; omega)
  have e2 := parseLE_toLE 4 r.timestamp (by norm_num at h2 ⊢; omega)
  have e3 := parseLE_toLE 4 r.current_a (by norm_num at h3 ⊢; omega)
  have e4 := parseLE_toLE 4 r.voltage_v (by norm_num at h4 ⊢; omega)
  have e5 := parseLE_toLE 4 r.power_w (by norm_num at h5 ⊢; omega)
  have e6 := parseLE_toLE_nil 2 r.raw_adc (by norm_num at h6 ⊢; omega)
  simp [unpack_current, encode_current, toLE_length, e1, e2, e3, e4, e5, e6]

theorem send_command_step_input (s : HubState) (caller pid cmd : Nat)
    (data : List Nat) :
    (send_command_step s caller pid cmd data).input = s.input := by
  unfold send_command_step
  split <;> rfl

theorem writerStep_input (s : HubState) (e : WriterEvent) :
    (writerStep s e).input = s.input := by
  cases e <;> simp [writerStep, send_command_step_input]

theorem readFrame_valid (pid : Nat) (payload rest : List Nat) :
    readFrame (RESPONSE_BYTE :: pid :: payload.length ::
        (payload ++ GOODBYE_BYTE :: rest)) =
      (.frame ⟨pid, payload⟩, rest) := by
  unfold readFrame
  rw [List.dropWhile_cons]
  simp only [bne_self_eq_false, Bool.false_eq_true, if_false]
  rw [if_pos (by simp)]
  rw [List.drop_left' rfl, List.take_left' rfl]
  simp only [List.headD_cons, GOODBYE_BYTE, if_true]
  rw [List.drop_append, List.drop_succ_cons, List.drop_zero]

theorem readFrame_desync (pid term : Nat) (payload rest : List Nat)
    (hterm : term ≠ GOODBYE_BYTE) :
    readFrame (RESPONSE_BYTE :: pid :: payload.length ::
        (payload ++ term :: rest)) = (.desync, []) := by
  unfold readFrame
  rw [List.dropWhile_cons]
  simp only [bne_self_eq_false, Bool.false_eq_true, if_false]
  rw [if_pos (by simp)]
  rw [List.drop_left' rfl]
  simp only [List.headD_cons]
  rw [if_neg hterm]

theorem send_command_step_pending (s : HubState) (caller pid cmd : Nat)
    (data : List Nat) :
    (send_command_step s caller pid cmd data).pending =
      registerPending s.pending pid caller := by
  unfold send_command_step
  split <;> rfl

theorem send_command_step_delivered (s : HubState) (caller pid cmd : Nat)
    (data : List Nat) :
    (send_command_step s caller pid cmd data).delivered = s.delivered := by
  unfold send_command_step
  split <;> rfl

theorem send_command_step_published (s : HubState) (caller pid cmd : Nat)
    (data : List Nat) :
    (send_command_step s caller pid cmd data).published = s.published := by
  unfold send_command_step
  split <;> rfl

theorem send_command_step_timedOut (s : HubState) (caller pid cmd : Nat)
    (data : List Nat) :
    (send_command_step s caller pid cmd data).timedOut = s.timedOut := by
  unfold send_command_step
  split <;> rfl

theorem rx_route_frame_input (s : HubState) (f : Frame) :
    (rx_route_frame s f).input = s.input := by
  unfold rx_route_frame
  split <;> rfl

/-! ## Claim theorems -/

/-- C1: for the whole lifetime of the hub, only the FrameReader reads the
Transport.  Under any interleaving of concurrent sendCommand calls and
polling ticks (the writer tasks), not a single byte of the transport input
buffer is consumed: reads happen only in FrameReader iterations. -/
theorem writers_never_read (evs : List WriterEvent) (s : HubState) :
    (evs.foldl writerStep s).input = s.input := by
  induction evs generalizing s with
  | nil => rfl
  | cons e t ih => rw [List.foldl_cons, ih, writerStep_input]

/-- C2: on a fully valid frame, if a PendingReply is registered for its
peripheral id the frame is delivered to that registration and the
registration is cleared, with nothing published as telemetry; otherwise
the frame is decoded by the PayloadDecoder and published as autonomous
telemetry, with registrations and deliveries untouched. -/
theorem rx_loop_routing (s : HubState) (f : Frame) :
    match s.pending f.peripheralId with
    | some caller =>
        (rx_route_frame s f).delivered = s.delivered ++ [(caller, f)] ∧
        (rx_route_frame s f).pending f.peripheralId = none ∧
        (rx_route_frame s f).published = s.published
    | none =>
        (rx_route_frame s f).published = s.published ++
          [(f.peripheralId, decode_wire_payload f.peripheralId f.payload)] ∧
        (rx_route_frame s f).delivered = s.delivered ∧
        (rx_route_frame s f).pending = s.pending := by
  cases h : s.pending f.peripheralId with
  | some caller => simp [rx_route_frame, h, popPending]
  | none => simp [rx_route_frame, h]

theorem writers_never_read_witness :
    (([WriterEvent.send 1 2 0 [], WriterEvent.pollTick 3 4]).foldl writerStep
      initialHub).input = initialHub.input :=
  writers_never_read [WriterEvent.send 1 2 0 [], WriterEvent.pollTick 3 4]
    initialHub

theorem rx_loop_routing_witness :
    (rx_route_frame initialHub ⟨1, [5]⟩).published = initialHub.published ++
      [(1, decode_wire_payload 1 [5])] ∧
    (rx_route_frame initialHub ⟨1, [5]⟩).delivered = initialHub.delivered ∧
    (rx_route_frame initialHub ⟨1, [5]⟩).pending = initialHub.pending :=
  rx_loop_routing initialHub ⟨1, [5]⟩

/-- C3: the registration table keys pending replies by peripheral id, so a
second sendCommand to the same peripheral replaces the first registration;
in the trace register(c1), register(c2), reply-arrives, reader-routes,
c1-deadline-expires, the reply is delivered to the second caller only and
the first caller fails with TimeoutError. -/
theorem pending_reply_supersession (pid c1 c2 cmd : Nat)
    (data payload : List Nat) (hne : c1 ≠ c2) :
    (hubRun initialHub
        [.writer (.send c1 pid cmd data)]).pending pid = some c1 ∧
    (hubRun initialHub
        [.writer (.send c1 pid cmd data),
         .writer (.send c2 pid cmd data)]).pending pid = some c2 ∧
    (hubRun initialHub
        [.writer (.send c1 pid cmd data),
         .writer (.send c2 pid cmd data),
         .arrive (RESPONSE_BYTE :: pid :: payload.length ::
           (payload ++ [GOODBYE_BYTE])),
         .readerWake]).delivered = [(c2, ⟨pid, payload⟩)] ∧
    (hubRun initialHub
        [.writer (.send c1 pid cmd data),
         .writer (.send c2 pid cmd data),
         .arrive (RESPONSE_BYTE :: pid :: payload.length ::
           (payload ++ [GOODBYE_BYTE])),
         .readerWake]).pending pid = none ∧
    (hubRun initialHub
        [.writer (.send c1 pid cmd data),
         .writer (.send c2 pid cmd data),
         .arrive (RESPONSE_BYTE :: pid :: payload.length ::
           (payload ++ [GOODBYE_BYTE])),
         .readerWake,
         .timeoutFire c1 pid]).timedOut = [c1] ∧
    (hubRun initialHub
        [.writer (.send c1 pid cmd data),
         .writer (.send c2 pid cmd data),
         .arrive (RESPONSE_BYTE :: pid :: payload.length ::
           (payload ++ [GOODBYE_BYTE])),
         .readerWake,
         .timeoutFire c1 pid]).delivered = [(c2, ⟨pid, payload⟩)] := by
  have hrf := readFrame_valid pid payload []
  simp only [hubRun, List.foldl_cons, List.foldl_nil, hubStep, writerStep,
    rx_loop_step, timeout_step,
    send_command_step_pending, send_command_step_delivered,
    send_command_step_published, send_command_step_timedOut,
    send_command_step_input, initialHub, List.nil_append, hrf,
    rx_route_frame, registerPending, popPending]
  simp [hne, Ne.symm hne, registerPending, popPending]

/-- C4: a terminator byte different from the end marker 0x7F is a
desynchronization event: the FrameReader discards every buffered inbound
byte (resetInputBuffer) and resumes scanning, and nothing of it reaches a
sendCommand caller — deliveries, published telemetry, registrations and
timeout failures are all unchanged, so the only caller-visible consequence
remains an eventual TimeoutError. -/
theorem bad_terminator_resync (s : HubState) (pid term : Nat)
    (payload rest : List Nat) (hterm : term ≠ GOODBYE_BYTE) :
    let buf := RESPONSE_BYTE :: pid :: payload.length ::
      (payload ++ term :: rest)
    readFrame buf = (.desync, []) ∧
    (rx_loop_step { s with input := buf }).input = [] ∧
    (rx_loop_step { s with input := buf }).delivered = s.delivered ∧
    (rx_loop_step { s with input := buf }).published = s.published ∧
    (rx_loop_step { s with input := buf }).pending = s.pending ∧
    (rx_loop_step { s with input := buf }).timedOut = s.timedOut := by
  have hrf := readFrame_desync pid term payload rest hterm
  simp [rx_loop_step, hrf]

/-- C5: after assembling a valid frame the FrameReader consumes exactly
the bytes of that frame: every byte after the terminator is left in the
transport buffer untouched for the next iteration. -/
theorem no_next_frame_consumption (s : HubState) (pid : Nat)
    (payload rest : List Nat) :
    let buf := RESPONSE_BYTE :: pid :: payload.length ::
      (payload ++ GOODBYE_BYTE :: rest)
    readFrame buf = (.frame ⟨pid, payload⟩, rest) ∧
    (rx_loop_step { s with input := buf }).input = rest := by
  have hrf := readFrame_valid pid payload rest
  simp [rx_loop_step, hrf, rx_route_frame_input]

theorem no_next_frame_consumption_witness :
    let buf := RESPONSE_BYTE :: 2 :: ([5] : List Nat).length ::
      ([5] ++ GOODBYE_BYTE :: [9])
    readFrame buf = (.frame ⟨2, [5]⟩, [9]) ∧
    (rx_loop_step { initialHub with input := buf }).input = [9] :=
  no_next_frame_consumption initialHub 2 [5] [9]

/-- C6: for every fixed payload structure (Heartbeat 6 bytes, FullStatus
20, RadioLinkData 74, BarometricReading 17, CurrentVoltageReading 19) and
every record with in-range fields, decode (encode record) = record; and a
payload whose byte length differs from the expected length fails with a
DecodeError carrying the expected and actual lengths. -/
theorem payload_codec_roundtrip :
    (∀ r : WireHeartbeat, hbInRange r →
        unpack_heartbeat (encode_heartbeat r) = .ok r) ∧
    (∀ p : List Nat, p.length ≠ 6 →
        unpack_heartbeat p = .error ⟨6, p.length⟩) ∧
    (∀ r : WireStatus, statusInRange r →
        unpack_status (encode_status r) = .ok r) ∧
    (∀ p : List Nat, p.length ≠ 20 →
        unpack_status p = .error ⟨20, p.length⟩) ∧
    (∀ r : WireLoRa, loraInRange r →
        unpack_lora (encode_lora r) = .ok r) ∧
    (∀ p : List Nat, p.length ≠ 74 →
        unpack_lora p = .error ⟨74, p.length⟩) ∧
    (∀ r : WireBarometer, baroInRange r →
        unpack_barometer (encode_barometer r) = .ok r) ∧
    (∀ p : List Nat, p.length ≠ 17 →
        unpack_barometer p = .error ⟨17, p.length⟩) ∧
    (∀ r : WireCurrent, currentInRange r →
        unpack_current (encode_current r) = .ok r) ∧
    (∀ p : List Nat, p.length ≠ 19 →
        unpack_current p = .error ⟨19, p.length⟩) := by
  refine ⟨unpack_encode_heartbeat, ?_, unpack_encode_status, ?_,
          unpack_encode_lora, ?_, unpack_encode_barometer, ?_,
          unpack_encode_current, ?_⟩
  · intro p h; simp [unpack_heartbeat, h]
  · intro p h; simp [unpack_status, h]
  · intro p h; simp [unpack_lora, h]
  · intro p h; simp [unpack_barometer, h]
  · intro p h; simp [unpack_current, h]

set_option maxRecDepth 4000 in
theorem payload_codec_roundtrip_witness :
    (unpack_heartbeat (encode_heartbeat ⟨1, 245, 2⟩) = .ok ⟨1, 245, 2⟩) ∧
    (unpack_heartbeat [0] = .error ⟨6, 1⟩) ∧
    (unpack_status (encode_status ⟨1, 245, 2, 3, 42, 18, 100, 50000, 1⟩) =
      .ok ⟨1, 245, 2, 3, 42, 18, 100, 50000, 1⟩) ∧
    (unpack_status [] = .error ⟨20, 0⟩) ∧
    (unpack_lora (encode_lora ⟨1, 42, -67, 12345, 5, List.replicate 64 9⟩) =
      .ok ⟨1, 42, -67, 12345, 5, List.replicate 64 9⟩) ∧
    (unpack_lora [1, 2, 3] = .error ⟨74, 3⟩) ∧
    (unpack_barometer (encode_barometer ⟨1, 7, 101325, 25, 100⟩) =
      .ok ⟨1, 7, 101325, 25, 100⟩) ∧
    (unpack_barometer [] = .error ⟨17, 0⟩) ∧
    (unpack_current (encode_current ⟨1, 7, 3, 12, 36, 512⟩) =
      .ok ⟨1, 7, 3, 12, 36, 512⟩) ∧
    (unpack_current [0, 0] = .error ⟨19, 2⟩) :=
  ⟨payload_codec_roundtrip.1 _ (by decide),
   payload_codec_roundtrip.2.1 [0] (by decide),
   payload_codec_roundtrip.2.2.1 _ (by decide),
   payload_codec_roundtrip.2.2.2.1 [] (by decide),
   payload_codec_roundtrip.2.2.2.2.1 _ (by decide),
   payload_codec_roundtrip.2.2.2.2.2.1 [1, 2, 3] (by decide),
   payload_codec_roundtrip.2.2.2.2.2.2.1 _ (by decide),
   payload_codec_roundtrip.2.2.2.2.2.2.2.1 [] (by decide),
   payload_codec_roundtrip.2.2.2.2.2.2.2.2.1 _ (by decide),
   payload_codec_roundtrip.2.2.2.2.2.2.2.2.2 [0, 0] (by decide)⟩

/-- C7: encodeCommand produces exactly
[0x7E][peripheralId][length][commandCode][data][0x7F] with the LENGTH byte
equal to 1 + len(data) (so the whole frame is len(data) + 5 bytes), and
fails with an EncodingError when 1 + len(data) would exceed the maximum
frame size. -/
theorem encodeCommand_layout (peripheralId commandCode : Nat)
    (data : List Nat) :
    (data.length + 1 ≤ MAX_FRAME_SIZE →
      encodeCommand peripheralId commandCode data =
        .ok (HELLO_BYTE :: peripheralId :: (1 + data.length) :: commandCode ::
             (data ++ [GOODBYE_BYTE])) ∧
      (HELLO_BYTE :: peripheralId :: (1 + data.length) :: commandCode ::
        (data ++ [GOODBYE_BYTE])).length = data.length + 5) ∧
    (MAX_FRAME_SIZE < data.length + 1 →
      encodeCommand peripheralId commandCode data =
        .error ⟨data.length + 1⟩) := by
  constructor
  · intro h
    constructor
    · unfold encodeCommand
      rw [if_neg (by omega)]
      rw [Nat.add_comm data.length 1]
    · simp
  · intro h
    unfold encodeCommand
    rw [if_pos h]

set_option maxRecDepth 4000 in
theorem encodeCommand_layout_witness :
    (encodeCommand 1 0 [] =
      .ok (HELLO_BYTE :: 1 :: 1 :: 0 :: ([] ++ [GOODBYE_BYTE])) ∧
      (HELLO_BYTE :: 1 :: 1 :: 0 ::
        (([] : List Nat) ++ [GOODBYE_BYTE])).length = 5) ∧
    (encodeCommand 1 0 (List.replicate 255 0) =
      .error ⟨256⟩) :=
  ⟨(encodeCommand_layout 1 0 []).1 (by decide),
   (encodeCommand_layout 1 0 (List.replicate 255 0)).2
     (by simp [MAX_FRAME_SIZE])⟩

theorem readExactGo_ok_length (sched : Nat → List Nat) (n : Nat) :
    ∀ (fuel t : Nat) (buf bs : List Nat),
      readExactGo sched n t fuel buf = .ok bs → bs.length = n := by
  intro fuel
  induction fuel with
  | zero =>
      intro t buf bs h
      unfold readExactGo at h
      split at h
      · rename_i hle
        injection h with h2
        subst h2
        simp [List.length_take]
        omega
      · exact absurd h (by simp)
  | succ fuel ih =>
      intro t buf bs h
      unfold readExactGo at h
      split at h
      · rename_i hle
        injection h with h2
        subst h2
        simp [List.length_take]
        omega
      · exact ih (t + 1) (buf ++ sched t) bs h

/-- C8: readExact either returns exactly n bytes or fails with
TimeoutError; a successful result is never shorter than n. -/
theorem readExact_exact_or_timeout (sched : Nat → List Nat)
    (n deadline : Nat) (bs : List Nat)
    (h : readExact sched n deadline = .ok bs) :
    bs.length = n :=
  readExactGo_ok_length sched n deadline 0 [] bs h

theorem readExact_exact_or_timeout_witness :
    readExact (fun _ => [7, 7, 7]) 2 1 = .ok [7, 7] ∧
    ([7, 7] : List Nat).length = 2 :=
  ⟨rfl, readExact_exact_or_timeout (fun _ => [7, 7, 7]) 2 1 [7, 7] rfl⟩

theorem pending_reply_supersession_witness :
    (hubRun initialHub
        [.writer (.send 10 1 0 [])]).pending 1 = some 10 ∧
    (hubRun initialHub
        [.writer (.send 10 1 0 []),
         .writer (.send 20 1 0 [])]).pending 1 = some 20 ∧
    (hubRun initialHub
        [.writer (.send 10 1 0 []),
         .writer (.send 20 1 0 []),
         .arrive (RESPONSE_BYTE :: 1 :: ([5] : List Nat).length ::
           ([5] ++ [GOODBYE_BYTE])),
         .readerWake]).delivered = [(20, ⟨1, [5]⟩)] ∧
    (hubRun initialHub
        [.writer (.send 10 1 0 []),
         .writer (.send 20 1 0 []),
         .arrive (RESPONSE_BYTE :: 1 :: ([5] : List Nat).length ::
           ([5] ++ [GOODBYE_BYTE])),
         .readerWake]).pending 1 = none ∧
    (hubRun initialHub
        [.writer (.send 10 1 0 []),
         .writer (.send 20 1 0 []),
         .arrive (RESPONSE_BYTE :: 1 :: ([5] : List Nat).length ::
           ([5] ++ [GOODBYE_BYTE])),
         .readerWake,
         .timeoutFire 10 1]).timedOut = [10] ∧
    (hubRun initialHub
        [.writer (.send 10 1 0 []),
         .writer (.send 20 1 0 []),
         .arrive (RESPONSE_BYTE :: 1 :: ([5] : List Nat).length ::
           ([5] ++ [GOODBYE_BYTE])),
         .readerWake,
         .timeoutFire 10 1]).delivered = [(20, ⟨1, [5]⟩)] :=
  pending_reply_supersession 1 10 20 0 [] [5] (by decide)

theorem bad_terminator_resync_witness :
    let buf := RESPONSE_BYTE :: 3 :: ([1, 2] : List Nat).length ::
      ([1, 2] ++ 0 :: [9])
    readFrame buf = (.desync, []) ∧
    (rx_loop_step { initialHub with input := buf }).input = [] ∧
    (rx_loop_step { initialHub with input := buf }).delivered =
      initialHub.delivered ∧
    (rx_loop_step { initialHub with input := buf }).published =
      initialHub.published ∧
    (rx_loop_step { initialHub with input := buf }).pending =
      initialHub.pending ∧
    (rx_loop_step { initialHub with input := buf }).timedOut =
      initialHub.timedOut :=
  bad_terminator_resync initialHub 3 0 [1, 2] [9] (by decide)

/-- C9: a fetch event whose request method is not GET, or whose URL path
starts with /api/, or which is a text/event-stream request (including the
/api/logs/stream and /api/telemetry/stream endpoints), is passed through by
both service-worker fetch handlers: the response is not served from the
cache, no cache entry is written, and the request goes to the network. -/
theorem sw_fetch_bypass (swOrigin : String) (r : SWRequest)
    (cache : List (String × String)) (netResp : Option String)
    (h : r.method ≠ "GET" ∨ r.pathname.startsWith "/api/" = true ∨
         jsIncludes r.accept "text/event-stream" = true ∨
         r.pathname = "/api/logs/stream" ∨
         r.pathname = "/api/telemetry/stream") :
    sw_fetch_v3 swOrigin r = .passThrough ∧
    sw_fetch_v5 swOrigin r = .passThrough ∧
    runFetch cache r netResp (sw_fetch_v3 swOrigin r) = ⟨cache, false, true⟩ ∧
    runFetch cache r netResp (sw_fetch_v5 swOrigin r) = ⟨cache, false, true⟩ := by
  have h3 : sw_fetch_v3 swOrigin r = .passThrough := by
    unfold sw_fetch_v3
    by_cases hs : jsIncludes r.accept "text/event-stream" = true ∨
        r.pathname = "/api/logs/stream" ∨ r.pathname = "/api/telemetry/stream"
    · rw [if_pos hs]
    · rw [if_neg hs]
      by_cases hm : r.method ≠ "GET"
      · rw [if_pos hm]
      · rw [if_neg hm]
        have hap : r.pathname.startsWith "/api/" = true := by
          rcases h with h | h | h | h | h
          · exact absurd h hm
          · exact h
          · exact absurd (Or.inl h) hs
          · exact absurd (Or.inr (Or.inl h)) hs
          · exact absurd (Or.inr (Or.inr h)) hs
        rw [if_pos hap]
  have h5 : sw_fetch_v5 swOrigin r = .passThrough := by
    unfold sw_fetch_v5
    by_cases hs : jsIncludes r.accept "text/event-stream" = true ∨
        r.pathname = "/api/logs/stream" ∨ r.pathname = "/api/telemetry/stream"
    · rw [if_pos hs]
    · rw [if_neg hs]
      by_cases hm : r.method ≠ "GET"
      · rw [if_pos hm]
      · rw [if_neg hm]
        have hap : r.pathname.startsWith "/api/" = true := by
          rcases h with h | h | h | h | h
          · exact absurd h hm
          · exact h
          · exact absurd (Or.inl h) hs
          · exact absurd (Or.inr (Or.inl h)) hs
          · exact absurd (Or.inr (Or.inr h)) hs
        rw [if_pos hap]
  refine ⟨h3, h5, ?_, ?_⟩
  · rw [h3]; rfl
  · rw [h5]; rfl

theorem sw_fetch_bypass_witness :
    sw_fetch_v3 "http://pi" ⟨"POST", "/api/settings", "http://pi", ""⟩ =
      .passThrough ∧
    sw_fetch_v5 "http://pi" ⟨"POST", "/api/settings", "http://pi", ""⟩ =
      .passThrough ∧
    runFetch [] ⟨"POST", "/api/settings", "http://pi", ""⟩ none
      (sw_fetch_v3 "http://pi" ⟨"POST", "/api/settings", "http://pi", ""⟩) =
      ⟨[], false, true⟩ ∧
    runFetch [] ⟨"POST", "/api/settings", "http://pi", ""⟩ none
      (sw_fetch_v5 "http://pi" ⟨"POST", "/api/settings", "http://pi", ""⟩) =
      ⟨[], false, true⟩ :=
  sw_fetch_bypass "http://pi" ⟨"POST", "/api/settings", "http://pi", ""⟩ []
    none (Or.inl (by decide))

/-- C10: after a persisting addLogEntry call, the per-channel array in
localStorage has at most MAX_ENTRIES (5000) entries, ends with the entry
just added, and is a drop-from-the-front suffix of the old array plus the
new entry: entries are removed only from the oldest end. -/
theorem addLogEntry_cap (hasLogContent : Bool) (stored : List LogEntry)
    (message level ts : String) (origin : Option String)
    (h : hasLogContent = true) :
    let e : LogEntry := ⟨ts, level, displayMessage origin message⟩
    let after := addLogEntryStorage hasLogContent stored message level ts origin
    after.length ≤ MAX_ENTRIES ∧
    after.getLast? = some e ∧
    ∃ k, k ≤ stored.length ∧ after = (stored ++ [e]).drop k := by
  subst h
  intro e after
  have hafter : after = persistEntry stored e := by
    simp [after, addLogEntryStorage]
  rw [hafter]
  unfold persistEntry
  by_cases hcap : MAX_ENTRIES < (stored ++ [e]).length
  · rw [if_pos hcap]
    simp only [List.length_append, List.length_cons, List.length_nil] at hcap
    have hk : stored.length + 1 - MAX_ENTRIES ≤ stored.length := by
      unfold MAX_ENTRIES at hcap ⊢
      omega
    refine ⟨?_, ?_, stored.length + 1 - MAX_ENTRIES, hk, ?_⟩
    · simp only [List.length_drop, List.length_append, List.length_cons,
        List.length_nil]
      omega
    · rw [List.drop_append_of_le_length (by simpa using hk)]
      simp
    · simp
  · rw [if_neg hcap]
    simp only [List.length_append, List.length_cons, List.length_nil] at hcap
    refine ⟨?_, ?_, 0, Nat.zero_le _, ?_⟩
    · simp only [List.length_append, List.length_cons, List.length_nil]
      omega
    · simp
    · simp

/-- C10: counterexample to the unrestricted claim — an addLogEntry call on
a panel without a log-content element returns before touching storage
(logs.js line 43), so after that call the persisted array is unchanged and
does not end with the entry passed to the call. -/
theorem addLogEntry_guard_no_persist :
    addLogEntryStorage false [] "link up" "info" "t0" none = [] ∧
    (addLogEntryStorage false [] "link up" "info" "t0" none).getLast? ≠
      some ⟨"t0", "info", displayMessage none "link up"⟩ := by
  constructor
  · rfl
  · simp [addLogEntryStorage]

theorem addLogEntry_cap_witness :
    (addLogEntryStorage true [] "link up" "info" "t0" (some "915")).length ≤
      MAX_ENTRIES ∧
    (addLogEntryStorage true [] "link up" "info" "t0" (some "915")).getLast? =
      some ⟨"t0", "info", displayMessage (some "915") "link up"⟩ ∧
    ∃ k, k ≤ ([] : List LogEntry).length ∧
      addLogEntryStorage true [] "link up" "info" "t0" (some "915") =
        (([] : List LogEntry) ++
          [LogEntry.mk "t0" "info" (displayMessage (some "915") "link up")]).drop
          k :=
  addLogEntry_cap true [] "link up" "info" "t0" (some "915") rfl

end Timone
